import Mathlib

/-!
Verification of the reconciliation core of `s3-smart-sync`.

Shallow embedding of the Python sources:

* `diff_engine.py` — `DiffEngine.compute_plan` over `ScannedFile` /
  `FileRecord` maps.  A Python dict keyed by inode is modelled as a
  `List` of entries (dict iteration order = list order); lookup
  `previous_records.get(inode)` is `List.find?` on the inode field.
  The dict `s3_objects` is used only through key membership and key
  iteration, so it is modelled as the `List String` of its keys.
  In `compute_plan`, the per-iteration appends to `plan.moves`,
  `plan.uploads` and `accounted_s3_keys` depend only on the current
  file, `previous_records` and `s3_objects` — `accounted_s3_keys` is
  write-only during step 1 and is only read in the step-2 orphan
  filter.  Hence the loop is equivalently: each file contributes an
  independent `StepResult` (`stepFile`), the plan lists are the
  concatenations of those contributions, and the deletes are the
  remote keys filtered against the final accounted set.

* `archive_handler.py` — the restore log is modelled as an
  `Option (List String)`: `none` when the file does not exist, `some
  lines` otherwise (lines carry no newline characters).  The
  in-memory `_pending_keys` set is modelled as a duplicate-free list;
  Python returns `list(set(...))` in unspecified order, modelled by
  `List.dedup` (same members, no duplicates).

* `s3_client.py` / `main.py` — remote calls are fallible; their
  outcomes are supplied by oracle functions, so theorems quantify over
  every possible pattern of remote success and failure.

Python floats (mtime) enter only through order comparisons, so they
are modelled as `Int`.
-/

namespace SmartSync

/-- Local file metadata produced by the scanner
(`scanner.py`, `ScannedFile`): relative path, absolute path, inode,
size, and modification time. -/
structure ScannedFile where
  path : String
  abs_path : String
  inode : Nat
  size : Nat
  mtime : Int
deriving DecidableEq

/-- Persisted index record (`db.py`, `FileRecord`). -/
structure FileRecord where
  path : String
  inode : Nat
  size : Nat
  mtime : Int
  synced : Bool
deriving DecidableEq

/-- Sync plan (`diff_engine.py`, `SyncPlan`): moves are
`(old_key, new_key)` pairs, uploads are `(local_abs_path, key)` pairs,
deletes are keys. -/
structure SyncPlan where
  moves : List (String × String)
  uploads : List (String × String)
  deletes : List String
deriving DecidableEq

/-- Contribution of one iteration of the step-1 loop of
`DiffEngine.compute_plan`: the moves and uploads appended for this
file, and the keys added to `accounted_s3_keys`. -/
structure StepResult where
  moves : List (String × String)
  uploads : List (String × String)
  accounted : List String
deriving DecidableEq

/-- Embedding of `self.previous_records.get(inode)`
(`diff_engine.py` line 87): lookup of the index record with the given
inode. -/
def lookupPrev (previous : List FileRecord) (inode : Nat) : Option FileRecord :=
  previous.find? (fun r => r.inode == inode)

/-- One iteration of the step-1 loop of `DiffEngine.compute_plan`
(`diff_engine.py` lines 86-117), for the current file `f`:

* previous record found and path differs: if the old path is a remote
  key, emit a move `(old path, new path)` and account both keys;
  otherwise emit an upload to the new path and account it;
* previous record found, path unchanged: if the size differs or the
  mtime strictly increased, emit an upload; otherwise nothing; in
  both cases account the current path;
* no previous record (new inode): emit an upload unless the path is
  already a remote key; account the path regardless. -/
def stepFile (remote : List String) (previous : List FileRecord)
    (f : ScannedFile) : StepResult :=
  match lookupPrev previous f.inode with
  | some prev =>
    if prev.path ≠ f.path then
      if prev.path ∈ remote then
        ⟨[(prev.path, f.path)], [], [prev.path, f.path]⟩
      else
        ⟨[], [(f.abs_path, f.path)], [f.path]⟩
    else if f.size ≠ prev.size ∨ f.mtime > prev.mtime then
      ⟨[], [(f.abs_path, f.path)], [f.path]⟩
    else
      ⟨[], [], [f.path]⟩
  | none =>
    if f.path ∈ remote then
      ⟨[], [], [f.path]⟩
    else
      ⟨[], [(f.abs_path, f.path)], [f.path]⟩

/-- Final contents of `accounted_s3_keys` after the step-1 loop of
`compute_plan` (as a list; only membership is ever used). -/
def accountedKeys (current : List ScannedFile) (previous : List FileRecord)
    (remote : List String) : List String :=
  (current.map (fun f => (stepFile remote previous f).accounted)).flatten

/-- Embedding of `DiffEngine.compute_plan` (`diff_engine.py` lines
65-125): step 1 concatenates the per-file contributions in iteration
order; step 2 (only when `delete_orphans` is set) emits every remote
key not in the accounted set as a delete, in remote iteration order. -/
def computePlan (current : List ScannedFile) (previous : List FileRecord)
    (remote : List String) (deleteOrphans : Bool) : SyncPlan :=
  ⟨(current.map (fun f => (stepFile remote previous f).moves)).flatten,
   (current.map (fun f => (stepFile remote previous f).uploads)).flatten,
   if deleteOrphans then
     remote.filter (fun k => decide (k ∉ accountedKeys current previous remote))
   else []⟩

/-- Number of plan actions in which key `k` occurs, counting a move
once per endpoint: occurrences among move sources, move destinations,
upload target keys, and delete keys. -/
def planKeyOccurrences (plan : SyncPlan) (k : String) : Nat :=
  plan.moves.countP (fun mv => mv.1 == k) +
    plan.moves.countP (fun mv => mv.2 == k) +
    plan.uploads.countP (fun u => u.2 == k) +
    plan.deletes.count k

/-! Embedding of `archive_handler.py`. -/

/-- Comment marker of the restore log: lines starting with it are
skipped on load (`archive_handler.py` line 75). -/
def commentMark : String := "#"

/-- Text of the timestamped comment header that `save_log` writes
before each batch of keys (`archive_handler.py` line 52). -/
def logHeaderText : String := "# Logged at "

/-- Keys of the in-memory pending set in the order `save_log` writes
them: Python `sorted(self._pending_keys)` — the distinct keys in
increasing order. -/
def sortKeys (pending : List String) : List String :=
  List.insertionSort (fun a b => a ≤ b) pending.dedup

/-- Embedding of `ArchiveHandler.save_log` (`archive_handler.py`
lines 39-59).  The log file is `Option (List String)` (`none` when
absent); `pending` lists the elements of `_pending_keys`.  An empty
pending set returns without touching the file; otherwise a
timestamped comment header, the sorted keys, and a blank separator
line are appended (opening with mode `a` creates the file). -/
def save_log (pending : List String) (timestamp : String)
    (file : Option (List String)) : Option (List String) :=
  if pending = [] then file
  else some (file.getD [] ++ (logHeaderText ++ timestamp) :: sortKeys pending ++ [""])

/-- Leading and trailing whitespace characters removed from a
character list. -/
def stripChars (cs : List Char) : List Char :=
  ((cs.dropWhile Char.isWhitespace).reverse.dropWhile Char.isWhitespace).reverse

/-- Model of Python `str.strip()`: the string with leading and
trailing whitespace removed (defined on the character data so that it
evaluates by kernel reduction). -/
def strip (s : String) : String := ⟨stripChars s.data⟩

/-- Model of Python `line.startswith('#')` on the character data. -/
def isComment (s : String) : Bool := commentMark.data.isPrefixOf s.data

/-- Embedding of `ArchiveHandler.load_pending_keys`
(`archive_handler.py` lines 61-78): a missing file yields `[]`;
otherwise each line is stripped, empty lines and lines starting with
the comment marker are dropped, and the result is deduplicated
(Python `list(set(keys))`). -/
def load_pending_keys (file : Option (List String)) : List String :=
  match file with
  | none => []
  | some lines =>
    ((lines.map strip).filter
        (fun l => !(l == "") && !(isComment l))).dedup

/-- Embedding of `ArchiveHandler.clear_log` (`archive_handler.py`
lines 80-84): the log file is removed. -/
def clear_log (_file : Option (List String)) : Option (List String) := none

/-! Embedding of `S3Client.move_object` and the execution phase of
`cmd_sync`. -/

/-- Result string of `S3Client.move_object` (`s3_client.py`
lines 143-185). -/
inductive MoveResult
  | success
  | archived
  | error
deriving DecidableEq

/-- Outcome of the remote copy+delete pair inside `move_object`:
either both remote calls succeed, or a `ClientError` carrying the
given error code is raised. -/
inductive RemoteOutcome
  | ok
  | clientError (code : String)
deriving DecidableEq

/-- In-memory state of `ArchiveHandler._pending_keys`, a set of keys
modelled as a duplicate-free list. -/
structure ArchiveState where
  pending : List String
deriving DecidableEq

/-- Embedding of `ArchiveHandler.log_archived_key`
(`archive_handler.py` lines 28-37): adds the key to the pending set. -/
def log_archived_key (st : ArchiveState) (key : String) : ArchiveState :=
  ⟨st.pending.insert key⟩

/-- Error code with which the remote store reports that the source
object is in a cold (retrieval-required) storage tier
(`s3_client.py` line 176). -/
def invalidObjectStateCode : String := "InvalidObjectState"

/-- Embedding of `S3Client.move_object` (`s3_client.py` lines
143-185) with the archive handler attached: on success of both
remote calls the result is `success`; on a `ClientError` whose code
is `InvalidObjectState` the SOURCE key is recorded via
`log_archived_key` and the result is `archived`; any other error
code yields `error` and records nothing. -/
def move_object (outcome : RemoteOutcome) (old_key new_key : String)
    (st : ArchiveState) : MoveResult × ArchiveState :=
  match outcome, new_key with
  | .ok, _ => (.success, st)
  | .clientError code, _ =>
    if code = invalidObjectStateCode then (.archived, log_archived_key st old_key)
    else (.error, st)

/-- Record of one executed sync run (`main.py`, `cmd_sync`, execution
phase): the per-move and per-upload outcomes, the keys whose deletion
was requested, the record batch upserted into the database, and the
final archive handler state. -/
structure SyncRunResult where
  moveResults : List (String × String × MoveResult)
  uploadResults : List (String × String × Bool)
  deleteRequested : List String
  upserted : List FileRecord
  archive : ArchiveState

/-- Database record built by `cmd_sync` for a current file
(`main.py` lines 179-188): the scanned metadata with
`synced := true`. -/
def mkRecord (f : ScannedFile) : FileRecord :=
  ⟨f.path, f.inode, f.size, f.mtime, true⟩

/-- Move phase of `cmd_sync` (`main.py` lines 146-154): each planned
move is executed with `s3.move_object`, threading the archive
handler; the result string is logged (collected here). -/
def execMoves (outcome : String → String → RemoteOutcome) :
    List (String × String) → ArchiveState →
      List (String × String × MoveResult) × ArchiveState
  | [], st => ([], st)
  | (ok, nk) :: rest, st =>
    let r := move_object (outcome ok nk) ok nk st
    let t := execMoves outcome rest r.2
    ((ok, nk, r.1) :: t.1, t.2)

/-- Embedding of the execution phase of `cmd_sync` (`main.py` lines
144-193, with `dry_run = false`): moves first, then deletes, then
uploads; afterwards the database update upserts a record for every
file of `current_files` — the collected per-action outcomes are
logged but never consulted when the record batch is built. -/
def cmd_sync_exec (plan : SyncPlan) (current : List ScannedFile)
    (moveOutcome : String → String → RemoteOutcome)
    (uploadOk : String → String → Bool) : SyncRunResult :=
  let m := execMoves moveOutcome plan.moves ⟨[]⟩
  ⟨m.1,
   plan.uploads.map (fun u => (u.1, u.2, uploadOk u.1 u.2)),
   plan.deletes,
   current.map mkRecord,
   m.2⟩

/-! Concrete inputs used by counterexamples and witnesses. -/

/-- First chained-rename file: inode 1 moved from key `p` to key `q`. -/
def c1fileA : ScannedFile := ⟨"q", "/local/q", 1, 1, 0⟩

/-- Second chained-rename file: inode 2 moved from key `r` to key `p`. -/
def c1fileB : ScannedFile := ⟨"p", "/local/p", 2, 1, 0⟩

/-- Previous index record of inode 1, at key `p`. -/
def c1prevA : FileRecord := ⟨"p", 1, 1, 0, true⟩

/-- Previous index record of inode 2, at key `r`. -/
def c1prevB : FileRecord := ⟨"r", 2, 1, 0, true⟩

/-- Remote listing for the chained-rename scenario. -/
def c1remote : List String := ["p", "r"]

/-- Plan computed for the chained-rename scenario. -/
def c1plan : SyncPlan :=
  computePlan [c1fileA, c1fileB] [c1prevA, c1prevB] c1remote false

/-- Remote key that the chained-rename plan touches twice. -/
def c1key : String := "p"

/-- Tracked local file for the delete-disjointness witness. -/
def w1file : ScannedFile := ⟨"keep", "/local/keep", 1, 1, 0⟩

/-- Remote listing with one orphan for the delete-disjointness
witness. -/
def w1remote : List String := ["keep", "orphan"]

/-- Orphaned remote key of the delete-disjointness witness. -/
def w1key : String := "orphan"

/-- Modified local file of the C2 scenario: same path and size as its
record, mtime went from 50 to 100, so an upload is planned. -/
def c2file : ScannedFile := ⟨"y.txt", "/local/y.txt", 2, 5, 100⟩

/-- Previous index record of the C2 scenario. -/
def c2prev : FileRecord := ⟨"y.txt", 2, 5, 50, true⟩

/-- Remote listing of the C2 scenario. -/
def c2remote : List String := ["y.txt"]

/-- Plan of the C2 scenario: one upload, nothing else. -/
def c2plan : SyncPlan := computePlan [c2file] [c2prev] c2remote false

/-- Run of the C2 scenario in which the upload fails. -/
def c2run : SyncRunResult :=
  cmd_sync_exec c2plan [c2file] (fun _ _ => .ok) (fun _ _ => false)

/-- Renamed file of the first identity in the C3 counterexample:
inode 1 moved from key `a` to key `b`. -/
def c3fileA : ScannedFile := ⟨"b", "/local/b", 1, 1, 0⟩

/-- Renamed file of the second identity in the C3 counterexample:
inode 2 moved from key `c` to key `a`. -/
def c3fileB : ScannedFile := ⟨"a", "/local/a", 2, 1, 0⟩

/-- Previous index record of inode 1, at key `a`. -/
def c3prevA : FileRecord := ⟨"a", 1, 1, 0, true⟩

/-- Previous index record of inode 2, at key `c`. -/
def c3prevB : FileRecord := ⟨"c", 2, 1, 0, true⟩

/-- Remote listing of the C3 counterexample. -/
def c3remote : List String := ["a", "c"]

/-- Plan of the C3 counterexample. -/
def c3plan : SyncPlan :=
  computePlan [c3fileA, c3fileB] [c3prevA, c3prevB] c3remote false

/-- Key `a` of the C3 counterexample: old path of inode 1 and new
path of inode 2. -/
def c3key : String := "a"

/-- Renamed local file of the rename-precedence witness. -/
def w3file : ScannedFile := ⟨"new", "/local/new", 1, 1, 0⟩

/-- Previous index record of the rename-precedence witness. -/
def w3prev : FileRecord := ⟨"old", 1, 1, 0, true⟩

/-- Remote listing of the rename-precedence witness. -/
def w3remote : List String := ["old"]

/-- First file of the C4 counterexample: inode 1 moved from key `m`
(absent remotely) to key `n`. -/
def c4fileA : ScannedFile := ⟨"n", "/local/n", 1, 1, 0⟩

/-- Second file of the C4 counterexample: inode 2 moved from key `z`
(present remotely) to key `m`. -/
def c4fileB : ScannedFile := ⟨"m", "/local/m", 2, 1, 0⟩

/-- Previous index record of inode 1, at key `m`. -/
def c4prevA : FileRecord := ⟨"m", 1, 1, 0, true⟩

/-- Previous index record of inode 2, at key `z`. -/
def c4prevB : FileRecord := ⟨"z", 2, 1, 0, true⟩

/-- Remote listing of the C4 counterexample: only `z`. -/
def c4remote : List String := ["z"]

/-- Plan of the C4 counterexample. -/
def c4plan : SyncPlan :=
  computePlan [c4fileA, c4fileB] [c4prevA, c4prevB] c4remote false

/-- Renamed local file of the rename-fallback witness. -/
def w4file : ScannedFile := ⟨"moved", "/local/moved", 1, 1, 0⟩

/-- Previous index record of the rename-fallback witness; its path is
absent from the (empty) remote listing. -/
def w4prev : FileRecord := ⟨"gone", 1, 1, 0, true⟩

/-- Modified local file of the C5 witness: same path and size, mtime
went from 100 to 200. -/
def w5doc : ScannedFile := ⟨"doc", "/local/doc", 5, 4, 200⟩

/-- Previous index record of the modified file. -/
def w5docPrev : FileRecord := ⟨"doc", 5, 4, 100, true⟩

/-- Remote listing of the modified-file witness scenario. -/
def w5remote : List String := ["doc"]

/-- Backdated local file of the C5 witness: same path and size, mtime
went from 80 down to 50. -/
def w5img : ScannedFile := ⟨"img", "/local/img", 6, 3, 50⟩

/-- Previous index record of the backdated file. -/
def w5imgPrev : FileRecord := ⟨"img", 6, 3, 80, true⟩

/-- Remote listing of the backdated-file witness scenario. -/
def w5imgRemote : List String := ["img"]

/-- Tracked local file of the orphan-gating witness. -/
def w6cur : ScannedFile := ⟨"f1", "/local/f1", 9, 2, 7⟩

/-- Remote listing of the orphan-gating witness: the tracked key plus
one stale key. -/
def w6remote : List String := ["f1", "stale"]

/-- Stale remote key of the orphan-gating witness. -/
def w6stale : String := "stale"

/-- Key appended twice across runs in the restore-log witness. -/
def w7key : String := "alpha"

/-- Timestamp of the first restore-log batch. -/
def w7ts1 : String := "2024-01-01T00:00:00"

/-- Timestamp of the second restore-log batch. -/
def w7ts2 : String := "2024-01-02T00:00:00"

/-- Two save batches, each containing the same key. -/
def w7batches : List (List String × String) := [([w7key], w7ts1), ([w7key], w7ts2)]

/-- Source key of the cold-tier witness. -/
def w8old : String := "cold/src"

/-- Destination key of the cold-tier witness. -/
def w8new : String := "cold/dst"

/-- Generic (non-cold-tier) error code of the cold-tier witness. -/
def w8code : String := "AccessDenied"

/-- Empty archive handler state of the cold-tier witness. -/
def w8state : ArchiveState := ⟨[]⟩

/-- Tracked local file of the C9 witness. -/
def w9cur : ScannedFile := ⟨"here", "/local/here", 3, 1, 0⟩

/-- Remote listing of the C9 witness: the tracked key plus one lost
key. -/
def w9remote : List String := ["here", "lost"]

/-- Orphaned remote key of the C9 witness. -/
def w9key : String := "lost"

/-! Basic lemmas about `computePlan`. -/

theorem mem_plan_moves {c : List ScannedFile} {p : List FileRecord}
    {r : List String} {d : Bool} {mv : String × String} :
    mv ∈ (computePlan c p r d).moves ↔ ∃ f ∈ c, mv ∈ (stepFile r p f).moves := by
  simp [computePlan, List.mem_flatten]

theorem mem_plan_uploads {c : List ScannedFile} {p : List FileRecord}
    {r : List String} {d : Bool} {u : String × String} :
    u ∈ (computePlan c p r d).uploads ↔ ∃ f ∈ c, u ∈ (stepFile r p f).uploads := by
  simp [computePlan, List.mem_flatten]

theorem mem_accountedKeys {c : List ScannedFile} {p : List FileRecord}
    {r : List String} {k : String} :
    k ∈ accountedKeys c p r ↔ ∃ f ∈ c, k ∈ (stepFile r p f).accounted := by
  simp [accountedKeys, List.mem_flatten]

theorem mem_plan_deletes {c : List ScannedFile} {p : List FileRecord}
    {r : List String} {d : Bool} {k : String} :
    k ∈ (computePlan c p r d).deletes ↔
      d = true ∧ k ∈ r ∧ k ∉ accountedKeys c p r := by
  cases d <;> simp [computePlan, List.mem_filter]

/-- Every branch of the step-1 loop adds the current path to the
accounted set. -/
theorem stepFile_path_mem_accounted (r : List String) (p : List FileRecord)
    (f : ScannedFile) : f.path ∈ (stepFile r p f).accounted := by
  unfold stepFile
  cases hl : lookupPrev p f.inode with
  | none => simp only [hl]; split <;> simp
  | some prev => simp only [hl]; split_ifs <;> simp

/-- A move emitted for file `f` has both endpoints in the accounted
set of that step, and its source is a remote key. -/
theorem stepFile_moves_spec {r : List String} {p : List FileRecord}
    {f : ScannedFile} {mv : String × String}
    (h : mv ∈ (stepFile r p f).moves) :
    mv.1 ∈ (stepFile r p f).accounted ∧ mv.2 ∈ (stepFile r p f).accounted ∧
      mv.1 ∈ r := by
  unfold stepFile at *
  cases hl : lookupPrev p f.inode with
  | none =>
    simp only [hl] at h ⊢; split at h <;> simp_all
  | some prev =>
    simp only [hl] at h ⊢; split_ifs at h ⊢ <;> simp_all

/-- An upload emitted for file `f` is always `(f.abs_path, f.path)`. -/
theorem stepFile_uploads_spec {r : List String} {p : List FileRecord}
    {f : ScannedFile} {u : String × String}
    (h : u ∈ (stepFile r p f).uploads) :
    u = (f.abs_path, f.path) := by
  unfold stepFile at *
  cases hl : lookupPrev p f.inode with
  | none =>
    simp only [hl] at h; split at h <;> simp_all
  | some prev =>
    simp only [hl] at h; split_ifs at h <;> simp_all

/-- Both endpoints of any planned move are accounted keys, and the
source is a remote key. -/
theorem plan_move_accounted {c : List ScannedFile} {p : List FileRecord}
    {r : List String} {d : Bool} {mv : String × String}
    (h : mv ∈ (computePlan c p r d).moves) :
    mv.1 ∈ accountedKeys c p r ∧ mv.2 ∈ accountedKeys c p r ∧ mv.1 ∈ r := by
  rcases mem_plan_moves.mp h with ⟨f, hf, hmv⟩
  rcases stepFile_moves_spec hmv with ⟨h1, h2, h3⟩
  exact ⟨mem_accountedKeys.mpr ⟨f, hf, h1⟩, mem_accountedKeys.mpr ⟨f, hf, h2⟩, h3⟩

/-- The target key of any planned upload is an accounted key. -/
theorem plan_upload_accounted {c : List ScannedFile} {p : List FileRecord}
    {r : List String} {d : Bool} {u : String × String}
    (h : u ∈ (computePlan c p r d).uploads) :
    u.2 ∈ accountedKeys c p r := by
  rcases mem_plan_uploads.mp h with ⟨f, hf, hu⟩
  have := stepFile_uploads_spec hu
  subst this
  exact mem_accountedKeys.mpr ⟨f, hf, stepFile_path_mem_accounted r p f⟩

/-- The current path of every scanned file is an accounted key. -/
theorem plan_current_path_accounted {c : List ScannedFile}
    {p : List FileRecord} {r : List String} {f : ScannedFile}
    (hf : f ∈ c) : f.path ∈ accountedKeys c p r :=
  mem_accountedKeys.mpr ⟨f, hf, stepFile_path_mem_accounted r p f⟩

/-- Projection of the delete list of a computed plan. -/
theorem plan_deletes_eq (c : List ScannedFile) (p : List FileRecord)
    (r : List String) (d : Bool) :
    (computePlan c p r d).deletes =
      if d then r.filter (fun k => decide (k ∉ accountedKeys c p r))
      else [] := rfl

/-! Claim C1. -/

/-- C1 counterexample: with two files whose renames chain
(`p` → `q` while `r` → `p`, both old keys remote), the plan contains
the moves `(p, q)` and `(r, p)`, so remote key `p` occurs in two
distinct actions (a move source and a move destination) — the
accounted-for bookkeeping only gates the delete pass, it does not
stop step 1 from reusing a key. -/
theorem plan_key_unique_counterexample :
    c1plan.moves = [(c1prevA.path, c1fileA.path), (c1prevB.path, c1fileB.path)] ∧
    planKeyOccurrences c1plan c1key = 2 := by decide

/-- C1 (amended): in any computed plan, a key in the delete list
appears in no move (as either endpoint) and in no upload, and — when
the remote keys are distinct, as they are for a dict listing —
appears exactly once among the deletes.  Move endpoints and upload
keys, however, are not pairwise disjoint in general. -/
theorem plan_deletes_disjoint (c : List ScannedFile) (p : List FileRecord)
    (r : List String) (d : Bool) (k : String) (hnd : r.Nodup)
    (hk : k ∈ (computePlan c p r d).deletes) :
    (∀ mv ∈ (computePlan c p r d).moves, mv.1 ≠ k ∧ mv.2 ≠ k) ∧
    (∀ u ∈ (computePlan c p r d).uploads, u.2 ≠ k) ∧
    (computePlan c p r d).deletes.count k = 1 := by
  obtain ⟨hd, hkr, hkacc⟩ := mem_plan_deletes.mp hk
  refine ⟨?_, ?_, ?_⟩
  · intro mv hmv
    obtain ⟨h1, h2, _⟩ := plan_move_accounted hmv
    exact ⟨fun e => hkacc (e ▸ h1), fun e => hkacc (e ▸ h2)⟩
  · intro u hu
    exact fun e => hkacc (e ▸ plan_upload_accounted hu)
  · have hnodup : (computePlan c p r d).deletes.Nodup := by
      rw [plan_deletes_eq, hd, if_pos rfl]
      exact hnd.filter _
    exact List.count_eq_one_of_mem hnodup hk

/-- Witness for the amended C1 theorem at a concrete orphan-delete
input. -/
theorem plan_deletes_disjoint_witness :
    (∀ mv ∈ (computePlan [w1file] [] w1remote true).moves, mv.1 ≠ w1key ∧ mv.2 ≠ w1key) ∧
    (∀ u ∈ (computePlan [w1file] [] w1remote true).uploads, u.2 ≠ w1key) ∧
    (computePlan [w1file] [] w1remote true).deletes.count w1key = 1 :=
  plan_deletes_disjoint [w1file] [] w1remote true w1key (by decide) (by decide)

/-! Claim C2. -/

/-- C2 counterexample: the single planned upload for key `y.txt`
fails (the upload oracle returns false), yet the database update at
the end of the run still upserts the record for `y.txt` with
`synced := true` — `cmd_sync` never consults the outcome of
`s3.upload_file` (nor of moves or deletes) when building the record
batch from `current_files`. -/
theorem sync_failed_key_excluded_counterexample :
    c2run.uploadResults = [(c2file.abs_path, c2file.path, false)] ∧
    mkRecord c2file ∈ c2run.upserted ∧
    (mkRecord c2file).synced = true := by decide

/-- C2 (amended): the end-of-run index update of `cmd_sync` is
independent of every remote outcome — for any plan and any two
outcome oracles the upserted batch is identical, and it contains the
record (with `synced := true`) of every current file.  Keys of failed
remote actions are not excluded. -/
theorem sync_upsert_ignores_outcomes (plan : SyncPlan)
    (current : List ScannedFile)
    (mo mo2 : String → String → RemoteOutcome)
    (uo uo2 : String → String → Bool) (f : ScannedFile)
    (hf : f ∈ current) :
    (cmd_sync_exec plan current mo uo).upserted =
      (cmd_sync_exec plan current mo2 uo2).upserted ∧
    mkRecord f ∈ (cmd_sync_exec plan current mo uo).upserted :=
  ⟨rfl, List.mem_map_of_mem _ hf⟩

/-- Witness for the amended C2 theorem: failed versus successful
upload oracle, same upsert batch, record present. -/
theorem sync_upsert_ignores_outcomes_witness :
    (cmd_sync_exec c2plan [c2file] (fun _ _ => .ok) (fun _ _ => false)).upserted =
      (cmd_sync_exec c2plan [c2file] (fun _ _ => .ok) (fun _ _ => true)).upserted ∧
    mkRecord c2file ∈
      (cmd_sync_exec c2plan [c2file] (fun _ _ => .ok) (fun _ _ => false)).upserted :=
  sync_upsert_ignores_outcomes c2plan [c2file] (fun _ _ => .ok) (fun _ _ => .ok)
    (fun _ _ => false) (fun _ _ => true) c2file (by decide)

/-! Claim C3. -/

/-- C3 (amended): a rename of identity `f.inode` from `prev.path` to
`f.path` whose old path is a remote key contributes the move
`(prev.path, f.path)` to the plan, and neither endpoint appears in
the delete list.  The original claim also demanded that neither key
appear in any other move or upload, which fails once several
identities whose renames chain through the same key are present (see
the C3 counterexample). -/
theorem rename_precedence (c : List ScannedFile) (p : List FileRecord)
    (r : List String) (d : Bool) (f : ScannedFile) (prev : FileRecord)
    (hf : f ∈ c) (hl : lookupPrev p f.inode = some prev)
    (hne : prev.path ≠ f.path) (hr : prev.path ∈ r) :
    (prev.path, f.path) ∈ (computePlan c p r d).moves ∧
    prev.path ∉ (computePlan c p r d).deletes ∧
    f.path ∉ (computePlan c p r d).deletes := by
  have hstep : stepFile r p f = ⟨[(prev.path, f.path)], [], [prev.path, f.path]⟩ := by
    unfold stepFile; rw [hl]; simp [hne, hr]
  refine ⟨mem_plan_moves.mpr ⟨f, hf, by rw [hstep]; simp⟩, ?_, ?_⟩
  · intro hdel
    exact (mem_plan_deletes.mp hdel).2.2
      (mem_accountedKeys.mpr ⟨f, hf, by rw [hstep]; simp⟩)
  · intro hdel
    exact (mem_plan_deletes.mp hdel).2.2
      (mem_accountedKeys.mpr ⟨f, hf, by rw [hstep]; simp⟩)

/-- C3 counterexample: identity 1 satisfies the claim hypotheses
(previously at `a`, now at `b`, with `a` in the remote listing) and
the plan does contain the move `(a, b)` — but `a` also appears as the
destination of the second identity's move `(c, a)`, so the claim's
"neither a nor b appears in any other action of that plan" is false
at this input. -/
theorem rename_precedence_counterexample :
    lookupPrev [c3prevA, c3prevB] c3fileA.inode = some c3prevA ∧
    c3prevA.path ∈ c3remote ∧
    c3plan.moves = [(c3prevA.path, c3fileA.path), (c3prevB.path, c3fileB.path)] ∧
    planKeyOccurrences c3plan c3key = 2 := by decide

/-- Witness for the amended C3 theorem at a concrete rename input. -/
theorem rename_precedence_witness :
    (w3prev.path, w3file.path) ∈ (computePlan [w3file] [w3prev] w3remote true).moves ∧
    w3prev.path ∉ (computePlan [w3file] [w3prev] w3remote true).deletes ∧
    w3file.path ∉ (computePlan [w3file] [w3prev] w3remote true).deletes :=
  rename_precedence [w3file] [w3prev] w3remote true w3file w3prev
    (by decide) (by decide) (by decide) (by decide)

/-! Claim C4. -/

/-- C4 (amended): a rename of identity `f.inode` from `prev.path` to
`f.path` whose old path is absent from the remote listing contributes
the upload `(f.abs_path, f.path)` to the plan, and no move in the
plan has `prev.path` as its source (every planned move source is a
remote key) — in particular the move `(prev.path, f.path)` is
absent.  The original claim also demanded that no move involve either
key at all, which fails when another identity is renamed onto the old
path (see the C4 counterexample). -/
theorem rename_fallback (c : List ScannedFile) (p : List FileRecord)
    (r : List String) (d : Bool) (f : ScannedFile) (prev : FileRecord)
    (hf : f ∈ c) (hl : lookupPrev p f.inode = some prev)
    (hne : prev.path ≠ f.path) (hr : prev.path ∉ r) :
    (f.abs_path, f.path) ∈ (computePlan c p r d).uploads ∧
    ∀ mv ∈ (computePlan c p r d).moves, mv.1 ≠ prev.path := by
  have hstep : stepFile r p f = ⟨[], [(f.abs_path, f.path)], [f.path]⟩ := by
    unfold stepFile; rw [hl]; simp [hne, hr]
  refine ⟨mem_plan_uploads.mpr ⟨f, hf, by rw [hstep]; simp⟩, ?_⟩
  intro mv hmv e
  exact hr (e ▸ (plan_move_accounted hmv).2.2)

/-- C4 counterexample: identity 1 satisfies the claim hypotheses
(previously at `m`, now at `n`, `m` absent from the remote listing)
and the plan contains the fallback upload — but the plan also
contains the move `(z, m)` issued for identity 2, a move involving
`m` (the old path of identity 1), so the claim's "contains no move
involving a or b" is false at this input. -/
theorem rename_fallback_counterexample :
    lookupPrev [c4prevA, c4prevB] c4fileA.inode = some c4prevA ∧
    c4prevA.path ∉ c4remote ∧
    c4plan.uploads = [(c4fileA.abs_path, c4fileA.path)] ∧
    c4plan.moves = [(c4prevB.path, c4fileB.path)] := by decide

/-- Witness for the amended C4 theorem at a concrete fallback input. -/
theorem rename_fallback_witness :
    (w4file.abs_path, w4file.path) ∈ (computePlan [w4file] [w4prev] [] false).uploads ∧
    ∀ mv ∈ (computePlan [w4file] [w4prev] [] false).moves, mv.1 ≠ w4prev.path :=
  rename_fallback [w4file] [w4prev] [] false w4file w4prev
    (by decide) (by decide) (by decide) (by decide)

/-! Claim C5. -/

/-- C5: for an identity present in both snapshots with identical path
and size, a strictly increased mtime yields the upload
`(f.abs_path, f.path)` in the plan, while an equal or decreased mtime
makes the identity contribute no move and no upload, and its path is
never deleted. -/
theorem modification_monotonic (c : List ScannedFile) (p : List FileRecord)
    (r : List String) (d : Bool) (f : ScannedFile) (prev : FileRecord)
    (hf : f ∈ c) (hl : lookupPrev p f.inode = some prev)
    (hpath : prev.path = f.path) (hsize : f.size = prev.size) :
    (prev.mtime < f.mtime → (f.abs_path, f.path) ∈ (computePlan c p r d).uploads) ∧
    (f.mtime ≤ prev.mtime →
      (stepFile r p f).moves = [] ∧ (stepFile r p f).uploads = [] ∧
      f.path ∉ (computePlan c p r d).deletes) := by
  constructor
  · intro hm
    have hstep : stepFile r p f = ⟨[], [(f.abs_path, f.path)], [f.path]⟩ := by
      unfold stepFile; rw [hl]; simp [hpath, hsize, hm]
    exact mem_plan_uploads.mpr ⟨f, hf, by rw [hstep]; simp⟩
  · intro hm
    have hnlt : ¬ prev.mtime < f.mtime := not_lt.mpr hm
    have hstep : stepFile r p f = ⟨[], [], [f.path]⟩ := by
      unfold stepFile; rw [hl]; simp [hpath, hsize, hnlt]
    refine ⟨by rw [hstep], by rw [hstep], fun hdel => ?_⟩
    exact (mem_plan_deletes.mp hdel).2.2 (plan_current_path_accounted hf)

/-- Witness for C5 at two concrete inputs: a strictly newer mtime
produces the upload, and a backdated mtime contributes nothing. -/
theorem modification_monotonic_witness :
    (w5doc.abs_path, w5doc.path) ∈ (computePlan [w5doc] [w5docPrev] w5remote false).uploads ∧
    ((stepFile w5imgRemote [w5imgPrev] w5img).moves = [] ∧
      (stepFile w5imgRemote [w5imgPrev] w5img).uploads = [] ∧
      w5img.path ∉ (computePlan [w5img] [w5imgPrev] w5imgRemote true).deletes) :=
  ⟨(modification_monotonic [w5doc] [w5docPrev] w5remote false w5doc w5docPrev
      (by decide) (by decide) (by decide) (by decide)).1 (by decide),
   (modification_monotonic [w5img] [w5imgPrev] w5imgRemote true w5img w5imgPrev
      (by decide) (by decide) (by decide) (by decide)).2 (by decide)⟩

/-! Claim C6. -/

/-- C6: with `delete_orphans = false` the computed plan has an empty
delete list, and with `delete_orphans = true` the delete list holds
exactly the remote keys not accounted for by the step-1 pass over the
current files. -/
theorem orphan_deletion_gated (c : List ScannedFile) (p : List FileRecord)
    (r : List String) :
    (computePlan c p r false).deletes = [] ∧
    ∀ k, k ∈ (computePlan c p r true).deletes ↔
      (k ∈ r ∧ k ∉ accountedKeys c p r) := by
  refine ⟨rfl, fun k => ?_⟩
  rw [mem_plan_deletes]
  simp

/-- Witness for C6 at a concrete input with one orphaned remote key. -/
theorem orphan_deletion_gated_witness :
    (computePlan [w6cur] [] w6remote false).deletes = [] ∧
    (w6stale ∈ (computePlan [w6cur] [] w6remote true).deletes ↔
      (w6stale ∈ w6remote ∧ w6stale ∉ accountedKeys [w6cur] [] w6remote)) :=
  ⟨(orphan_deletion_gated [w6cur] [] w6remote).1,
   (orphan_deletion_gated [w6cur] [] w6remote).2 w6stale⟩

/-! Claim C9. -/

/-- C9: every key in the delete list of a computed plan is a remote
key and differs from the current relative path of every scanned file
— a file present in the current scan never has its own key deleted
in the same plan. -/
theorem deletes_remote_only (c : List ScannedFile) (p : List FileRecord)
    (r : List String) (d : Bool) (k : String)
    (hk : k ∈ (computePlan c p r d).deletes) :
    k ∈ r ∧ ∀ f ∈ c, f.path ≠ k := by
  obtain ⟨_, hkr, hkacc⟩ := mem_plan_deletes.mp hk
  exact ⟨hkr, fun f hf e => hkacc (e ▸ plan_current_path_accounted hf)⟩

/-- Witness for C9 at a concrete input whose plan deletes one key. -/
theorem deletes_remote_only_witness :
    w9key ∈ w9remote ∧ ∀ f ∈ [w9cur], ScannedFile.path f ≠ w9key :=
  deletes_remote_only [w9cur] [] w9remote true w9key (by decide)

/-! Lemmas about the restore log. -/

/-- Sorting the pending set preserves membership. -/
theorem mem_sortKeys {k : String} {l : List String} :
    k ∈ sortKeys l ↔ k ∈ l := by
  unfold sortKeys
  rw [(List.perm_insertionSort _ _).mem_iff, List.mem_dedup]

/-- A line present in the file before `save_log`, or a key of the
saved batch, is a line of the file afterwards. -/
theorem mem_save_log_lines {k : String} {pending : List String}
    {ts : String} {file : Option (List String)}
    (h : k ∈ file.getD [] ∨ k ∈ pending) :
    k ∈ (save_log pending ts file).getD [] := by
  unfold save_log
  split
  · rcases h with h | h
    · exact h
    · simp_all
  · rw [Option.getD_some]
    rcases h with h | h
    · exact List.mem_append_left _ (List.mem_append_left _ h)
    · exact List.mem_append_left _
        (List.mem_append_right _ (List.mem_cons_of_mem _ (mem_sortKeys.mpr h)))

/-- A key appended by any batch of a run sequence is a line of the
final log file. -/
theorem save_log_foldl_mem {k : String}
    (batches : List (List String × String)) (file : Option (List String))
    (h : k ∈ file.getD [] ∨ ∃ b ∈ batches, k ∈ b.1) :
    k ∈ (batches.foldl (fun acc b => save_log b.1 b.2 acc) file).getD [] := by
  induction batches generalizing file with
  | nil => simpa using h
  | cons b bs ih =>
    apply ih
    rcases h with h | ⟨b2, hb2, hk2⟩
    · exact Or.inl (mem_save_log_lines (Or.inl h))
    · rcases List.mem_cons.mp hb2 with rfl | hb2
      · exact Or.inl (mem_save_log_lines (Or.inr hk2))
      · exact Or.inr ⟨b2, hb2, hk2⟩

/-- The loaded key list never contains duplicates. -/
theorem load_pending_keys_nodup (file : Option (List String)) :
    (load_pending_keys file).Nodup := by
  cases file with
  | none => exact List.nodup_nil
  | some lines => exact List.nodup_dedup _

/-- A line of the log file that is its own strip, nonempty, and not a
comment is among the loaded keys. -/
theorem mem_load_of_mem_lines {k : String} {file : Option (List String)}
    (hk : k ∈ file.getD []) (htrim : strip k = k) (hne : k ≠ "")
    (hcm : isComment k = false) :
    k ∈ load_pending_keys file := by
  cases file with
  | none => simp at hk
  | some lines =>
    unfold load_pending_keys
    rw [List.mem_dedup, List.mem_filter]
    refine ⟨List.mem_map.mpr ⟨k, by simpa using hk, htrim⟩, ?_⟩
    simp [hne, hcm]

/-! Claim C7. -/

/-- C7: across any sequence of `save_log` batches (each writing its
timestamped comment header, its sorted keys, and a blank separator),
a clean key appended by at least one batch is returned by
`load_pending_keys` exactly once — comment lines are discarded and
duplicates collapse, so appending is idempotent for the loaded key
set.  Clean means the key is its own strip, nonempty, and does not
start with the comment marker, which holds for every remote key the
handler logs. -/
theorem restore_log_idempotent (batches : List (List String × String))
    (init : Option (List String)) (k : String)
    (htrim : strip k = k) (hne : k ≠ "")
    (hcm : isComment k = false)
    (hk : ∃ b ∈ batches, k ∈ b.1) :
    (load_pending_keys
      (batches.foldl (fun acc b => save_log b.1 b.2 acc) init)).count k = 1 := by
  have hmem := save_log_foldl_mem batches init (Or.inr hk)
  have hload := mem_load_of_mem_lines hmem htrim hne hcm
  exact List.count_eq_one_of_mem (load_pending_keys_nodup _) hload

/-- Witness for C7: the same key saved in two successive runs is
loaded exactly once. -/
theorem restore_log_idempotent_witness :
    (load_pending_keys
      (w7batches.foldl (fun acc b => save_log b.1 b.2 acc) none)).count w7key = 1 :=
  restore_log_idempotent w7batches none w7key
    (by decide) (by decide) (by decide) (by decide)

/-! Claim C8. -/

/-- C8: `move_object` distinguishes the cold-tier condition from all
other failures — a `ClientError` with code `InvalidObjectState`
yields result `archived` (not `error`) and records the SOURCE key
into the archive handler's pending set (the destination key is not
added), while a `ClientError` with any other code yields `error` and
leaves the pending set untouched; when both remote calls succeed the
result is `success`. -/
theorem move_object_cold_tier (old_key new_key code : String)
    (st : ArchiveState) :
    (move_object (.clientError invalidObjectStateCode) old_key new_key st =
        (.archived, ⟨st.pending.insert old_key⟩) ∧
      old_key ∈
        (move_object (.clientError invalidObjectStateCode) old_key new_key st).2.pending ∧
      (new_key ≠ old_key → new_key ∉ st.pending →
        new_key ∉
          (move_object (.clientError invalidObjectStateCode) old_key new_key st).2.pending)) ∧
    (code ≠ invalidObjectStateCode →
      move_object (.clientError code) old_key new_key st = (.error, st)) ∧
    move_object .ok old_key new_key st = (.success, st) := by
  refine ⟨⟨rfl, ?_, ?_⟩, ?_, rfl⟩
  · simp [move_object, log_archived_key, List.mem_insert_iff]
  · intro h1 h2
    simp [move_object, log_archived_key, List.mem_insert_iff, h1, h2]
  · intro hc
    simp [move_object, hc]

/-- Witness for C8 at concrete keys: a cold-tier error archives and
records the source key only; a generic error records nothing. -/
theorem move_object_cold_tier_witness :
    move_object (.clientError invalidObjectStateCode) w8old w8new w8state =
      (.archived, ⟨[w8old]⟩) ∧
    w8new ∉ (move_object (.clientError invalidObjectStateCode) w8old w8new w8state).2.pending ∧
    move_object (.clientError w8code) w8old w8new w8state = (.error, w8state) := by
  obtain ⟨⟨h1, _h2, h3⟩, h4, _h5⟩ := move_object_cold_tier w8old w8new w8code w8state
  exact ⟨by rw [h1]; decide, h3 (by decide) (by decide), h4 (by decide)⟩

/-! Claim C10. -/

/-- C10: `load_pending_keys` returns the empty list when the restore
log file does not exist, and hence also right after `clear_log`
removed it — the first run and any run after a clear observe an
empty pending key set. -/
theorem load_missing_log_empty :
    load_pending_keys none = [] ∧
    ∀ file, load_pending_keys (clear_log file) = [] :=
  ⟨rfl, fun _ => rfl⟩

end SmartSync